import Mathlib

/-!
# bk-iam: deadlock retry of the subject-template-group handlers, the remote
resource list cache key, and the process-wide redis handles

Shallow embedding of

* `pkg/api/web/handler/subject_template_group.go`
  (`BatchCreateSubjectTemplateGroup`, `BatchDeleteSubjectTemplateGroup`,
  `convertToPapSubjectTemplateGroup`),
* `pkg/cache/redis/init.go` (`initRedisClient`, `InitRedisClient`,
  `InitMQRedisClient`, the two getters),
* the cache key and `ListRemoteResources` exercised by
  `pkg/cacheimpls/local_remote_resource_list_test.go`.
-/

namespace BkIam

/-! ## Handler: data -/

/-- Request item of the batch endpoints (`subjectTemplateGroupSerializer`); the
fields are the ones `convertToPapSubjectTemplateGroup` reads. -/
structure SubjectTemplateGroupSerializer where
  Type_ : String
  ID : String
  TemplateID : Int
  GroupID : Int
  ExpiredAt : Int
  deriving DecidableEq, Repr

/-- Record `pap.SubjectTemplateGroup` as built by `convertToPapSubjectTemplateGroup`. -/
structure SubjectTemplateGroup where
  Type_ : String
  ID : String
  TemplateID : Int
  GroupID : Int
  ExpiredAt : Int
  deriving DecidableEq, Repr

/-- Function `convertToPapSubjectTemplateGroup`: one record per request item, in order. -/
def convertToPapSubjectTemplateGroup (body : List SubjectTemplateGroupSerializer) :
    List SubjectTemplateGroup :=
  body.map fun m =>
    { Type_ := m.Type_, ID := m.ID, TemplateID := m.TemplateID, GroupID := m.GroupID,
      ExpiredAt := m.ExpiredAt }

/-- Modelled from the spec: the storage error taxonomy behind `util.IsDeadLockError`
(package `util` is not among the embedded sources). A storage failure is either the
transient `DeadlockError` or any other `StorageError`. -/
inductive StorageError where
  | deadlock (detail : String)
  | other (detail : String)
  deriving DecidableEq, Repr

/-- Modelled from the spec: `util.IsDeadLockError`, the classifier of a Go `error`
value (`none` is `nil`): only a deadlock-classified storage error is a deadlock,
`nil` is not an error at all. -/
def IsDeadLockError : Option StorageError → Bool
  | some (StorageError.deadlock _) => true
  | _ => false

/-- Error produced by the wrapper `errorx.NewLayerFunctionErrorWrapf layer function`
applied to `(err, subFunction, format, args)`. -/
structure WrappedError where
  layer : String
  function : String
  subFunction : String
  format : String
  args : List SubjectTemplateGroup
  err : StorageError
  deriving DecidableEq, Repr

/-- The three JSON responses the handlers write. -/
inductive Response where
  | badRequest (message : String)
  | systemError (err : WrappedError)
  | success (message : String)
  deriving DecidableEq, Repr

/-- Modelled from the spec: `common.ValidateArray` (package `common` is not among
the embedded sources): an empty sequence is rejected, and so is a sequence with an item
that is not individually valid; `validItem` is the per-item validation. -/
def ValidateArray (validItem : SubjectTemplateGroupSerializer → Option String)
    (body : List SubjectTemplateGroupSerializer) : Bool × String :=
  match body with
  | [] => (false, "the array should contain at least 1 item")
  | _ => match body.findSome? validItem with
    | some message => (false, message)
    | none => (true, "valid")

/-- What a handler needs from outside: the per-item validation, the retry budget
`util.DBDeadLockRetryCount`, and the two controller methods, each given as the
error returned by its `n`-th invocation (counted from 0) on the given records. -/
structure Deps where
  validItem : SubjectTemplateGroupSerializer → Option String
  DBDeadLockRetryCount : Nat
  BulkCreateSubjectTemplateGroup : Nat → List SubjectTemplateGroup → Option StorageError
  BulkDeleteSubjectTemplateGroup : Nat → List SubjectTemplateGroup → Option StorageError

/-- Variables of the retry loop plus the observable effects: `err` is the Go
variable `err`, `calls` counts invocations of the mutation, `sleeps` counts
`time.Sleep(util.DBDeadLockRetryInterval)`. -/
structure LoopState where
  err : Option StorageError
  calls : Nat
  sleeps : Nat
  deriving DecidableEq, Repr

/-- State before the loop: `var err error`, nothing invoked yet. -/
def LoopState.init : LoopState := { err := none, calls := 0, sleeps := 0 }

/-- The loop of `BatchCreateSubjectTemplateGroup`,
`for i := 0; i < N; i++ { err = mutate(); if !IsDeadLockError(err) { break }; sleep }`,
with `remaining = N - i` iterations left. -/
def createLoop (mutate : Nat → Option StorageError) : Nat → LoopState → LoopState
  | 0, st => st
  | remaining + 1, st =>
    let err := mutate st.calls
    let st1 : LoopState := { st with err := err, calls := st.calls + 1 }
    if !IsDeadLockError err then st1
    else createLoop mutate remaining { st1 with sleeps := st1.sleeps + 1 }

/-- The loop of `BatchDeleteSubjectTemplateGroup`,
`for i := 0; i < N; i++ { err = mutate(); if IsDeadLockError(err) { break }; sleep }`,
with `remaining = N - i` iterations left. -/
def deleteLoop (mutate : Nat → Option StorageError) : Nat → LoopState → LoopState
  | 0, st => st
  | remaining + 1, st =>
    let err := mutate st.calls
    let st1 : LoopState := { st with err := err, calls := st.calls + 1 }
    if IsDeadLockError err then st1
    else deleteLoop mutate remaining { st1 with sleeps := st1.sleeps + 1 }

/-- Outcome of a handler run: the response written and the effects performed. -/
structure HandlerResult where
  response : Response
  calls : Nat
  sleeps : Nat
  deriving DecidableEq, Repr

/-- The tail shared by both handlers: `if err != nil { wrap; SystemErrorJSONResponse }`
else `SuccessJSONResponse(c, "ok", nil)`. -/
def respond (function subFunction : String) (records : List SubjectTemplateGroup)
    (st : LoopState) : HandlerResult :=
  match st.err with
  | some e =>
    { response := Response.systemError
        { layer := "Handler", function := function, subFunction := subFunction,
          format := "subjectTemplateGroups=`%+v`", args := records, err := e },
      calls := st.calls, sleeps := st.sleeps }
  | none => { response := Response.success "ok", calls := st.calls, sleeps := st.sleeps }

/-- Handler `BatchCreateSubjectTemplateGroup`; `bound` is the result of
`c.ShouldBindJSON(&body)` (the message of `util.ValidationErrorMessage` on failure). -/
def BatchCreateSubjectTemplateGroup (d : Deps)
    (bound : Except String (List SubjectTemplateGroupSerializer)) : HandlerResult :=
  match bound with
  | Except.error message => { response := Response.badRequest message, calls := 0, sleeps := 0 }
  | Except.ok body =>
    match ValidateArray d.validItem body with
    | (false, message) => { response := Response.badRequest message, calls := 0, sleeps := 0 }
    | (true, _) =>
      let papSubjectTemplateGroups := convertToPapSubjectTemplateGroup body
      let st := createLoop (fun n => d.BulkCreateSubjectTemplateGroup n papSubjectTemplateGroups)
        d.DBDeadLockRetryCount LoopState.init
      respond "BatchCreateSubjectTemplateGroup" "ctl.BulkCreateSubjectTemplateGroup"
        papSubjectTemplateGroups st

/-- Handler `BatchDeleteSubjectTemplateGroup`. -/
def BatchDeleteSubjectTemplateGroup (d : Deps)
    (bound : Except String (List SubjectTemplateGroupSerializer)) : HandlerResult :=
  match bound with
  | Except.error message => { response := Response.badRequest message, calls := 0, sleeps := 0 }
  | Except.ok body =>
    match ValidateArray d.validItem body with
    | (false, message) => { response := Response.badRequest message, calls := 0, sleeps := 0 }
    | (true, _) =>
      let papSubjectTemplateGroups := convertToPapSubjectTemplateGroup body
      let st := deleteLoop (fun n => d.BulkDeleteSubjectTemplateGroup n papSubjectTemplateGroups)
        d.DBDeadLockRetryCount LoopState.init
      respond "BatchDeleteSubjectTemplateGroup" "ctl.BulkDeleteSubjectTemplateGroup"
        papSubjectTemplateGroups st

/-! ## Cache key and resource list cache -/

/-- Composite identity of a remote resource list; `IDs` and `Fields` are already
joined strings. -/
structure RemoteResourceListCacheKey where
  Tenant : String
  System : String
  Type_ : String
  IDs : String
  Fields : String
  deriving DecidableEq, Repr

/-- Modelled from the spec: the string that `RemoteResourceListCacheKey.Key` hashes
(the method is exercised by `TestRemoteResourceListCacheKey_Key` only):
`tenant + ":" + system + ":" + type + ":" + ids + ":" + fields`. -/
def RemoteResourceListCacheKey.joined (k : RemoteResourceListCacheKey) : String :=
  k.Tenant ++ ":" ++ k.System ++ ":" ++ k.Type_ ++ ":" ++ k.IDs ++ ":" ++ k.Fields

/-- Modelled from the spec: `RemoteResourceListCacheKey.Key`, the digest of the
colon-joined fields; `hash` stands for the library digest `stringx.MD5Hash`. -/
def RemoteResourceListCacheKey.Key (hash : String → String)
    (k : RemoteResourceListCacheKey) : String :=
  hash k.joined

/-- One resource: attribute name to value (`map[string]interface{}`). -/
abbrev Resource := List (String × String)

/-- Entry of a cache tier. -/
structure CacheEntry where
  value : List Resource
  expiresAt : Nat
  deriving DecidableEq, Repr

/-- Both cache tiers, keyed by digest, and the number of loader invocations so far. -/
structure CacheState where
  localTier : List (String × CacheEntry)
  sharedTier : List (String × CacheEntry)
  loads : Nat
  deriving DecidableEq, Repr

/-- What the cache is built from: the digest, how the id and field lists are joined
into the key, the loader (result of its `n`-th invocation, counted from 0, on a
key), and the time-to-live. -/
structure CacheDeps where
  hash : String → String
  joinIDs : List String → String
  joinFields : List String → String
  retrieve : Nat → RemoteResourceListCacheKey → Except String (List Resource)
  expiration : Nat

/-- Probe of one tier at time `now`: the entry under `key` if there is one that has
not expired. -/
def probe (tier : List (String × CacheEntry)) (key : String) (now : Nat) : Option CacheEntry :=
  match tier.lookup key with
  | some e => if now < e.expiresAt then some e else none
  | none => none

/-- Replace the entry under `key` in a tier. -/
def store (tier : List (String × CacheEntry)) (key : String) (e : CacheEntry) :
    List (String × CacheEntry) :=
  (key, e) :: tier.filter fun p => p.1 != key

/-- The composite key of a lookup: the id and field lists enter already joined. -/
def cacheKeyOf (d : CacheDeps) (tenant system type_ : String) (ids fields : List String) :
    RemoteResourceListCacheKey :=
  { Tenant := tenant, System := system, Type_ := type_, IDs := d.joinIDs ids,
    Fields := d.joinFields fields }

/-- Modelled from the spec: `ListRemoteResources` (exercised by
`TestListRemoteResources` only), steps 1 to 6 of the two-tier resource cache for a
single caller at time `now`: key, local probe, shared probe (populating the local
tier), loader on a full miss, both tiers populated on success, nothing stored on
failure. -/
def ListRemoteResources (d : CacheDeps) (now : Nat) (tenant system type_ : String)
    (ids fields : List String) (s : CacheState) :
    Except String (List Resource) × CacheState :=
  let k := cacheKeyOf d tenant system type_ ids fields
  let key := k.Key d.hash
  match probe s.localTier key now with
  | some e => (Except.ok e.value, s)
  | none =>
    match probe s.sharedTier key now with
    | some e => (Except.ok e.value, { s with localTier := store s.localTier key e })
    | none =>
      match d.retrieve s.loads k with
      | Except.ok value =>
        let e : CacheEntry := { value := value, expiresAt := now + d.expiration }
        (Except.ok value,
          { localTier := store s.localTier key e, sharedTier := store s.sharedTier key e,
            loads := s.loads + 1 })
      | Except.error err => (Except.error err, { s with loads := s.loads + 1 })

/-! ## Redis handles -/

/-- The `TLS` block of `config.Redis`, as read by the client constructors. -/
structure RedisTLS where
  Enabled : Bool
  CertCaFile : String
  CertFile : String
  CertKeyFile : String
  InsecureSkipVerify : Bool
  deriving DecidableEq, Repr

/-- The fields of `config.Redis` that `init.go` reads. -/
structure RedisConfig where
  Type_ : String
  Addr : String
  Password : String
  DB : Int
  DialTimeout : Int
  ReadTimeout : Int
  WriteTimeout : Int
  PoolSize : Int
  MinIdleConns : Int
  SentinelAddr : String
  MasterName : String
  SentinelPassword : String
  TLS : RedisTLS
  deriving DecidableEq, Repr

/-- Constants `ModeStandalone` and `ModeSentinel`. -/
def ModeStandalone : String := "standalone"

/-- Constant `ModeSentinel`. -/
def ModeSentinel : String := "sentinel"

/-- A `tls.Config` as returned by `util.NewTLSConfig`, identified by its inputs. -/
structure TLSConfig where
  certCaFile : String
  certFile : String
  certKeyFile : String
  insecureSkipVerify : Bool
  deriving DecidableEq, Repr

/-- Two-complement wrap of a 64-bit signed product (`time.Duration` arithmetic). -/
def wrap64 (x : Int) : Int := (x + 2 ^ 63) % 2 ^ 64 - 2 ^ 63

/-- Constant `time.Second` in nanoseconds. -/
def Second : Int := 1000000000

/-- Constant `time.Minute` in nanoseconds. -/
def Minute : Int := 60 * Second

/-- Fields of `redis.Options` set by `newStandaloneClient`. -/
structure Options where
  Addr : String
  Password : String
  DB : Int
  DialTimeout : Int
  ReadTimeout : Int
  WriteTimeout : Int
  PoolSize : Int
  MinIdleConns : Int
  IdleTimeout : Int
  TLSConfig : Option TLSConfig
  deriving DecidableEq, Repr

/-- Fields of `redis.FailoverOptions` set by `newSentinelClient`. -/
structure FailoverOptions where
  MasterName : String
  SentinelAddrs : List String
  DB : Int
  Password : String
  SentinelPassword : String
  DialTimeout : Int
  ReadTimeout : Int
  WriteTimeout : Int
  PoolSize : Int
  MinIdleConns : Int
  IdleTimeout : Int
  TLSConfig : Option TLSConfig
  deriving DecidableEq, Repr

/-- What a client was constructed from. -/
inductive ClientOptions where
  | standalone (opt : Options)
  | failover (opt : FailoverOptions)
  deriving DecidableEq, Repr

/-- A `*redis.Client`: `serial` is the identity of the allocation (two constructions
never give the same pointer). -/
structure Client where
  serial : Nat
  options : ClientOptions
  deriving DecidableEq, Repr

/-- How a call can end other than by returning: `panic(...)` or `log.Fatalf` (exit). -/
inductive Abort where
  | panic (message : String)
  | fatal (message : String)
  deriving DecidableEq, Repr

/-- The surroundings of the process: `runtime.NumCPU()`, `util.NewTLSConfig`, and the
error (if any) of pinging a client. -/
structure Env where
  numCPU : Int
  newTLSConfig : String → String → String → Bool → Except String TLSConfig
  ping : Client → Option String

/-- The TLS part of both constructors: no config when disabled, `log.Fatalf` when
`util.NewTLSConfig` fails. -/
def tlsConfigOf (env : Env) (tls : RedisTLS) : Except Abort (Option TLSConfig) :=
  if tls.Enabled then
    match env.newTLSConfig tls.CertCaFile tls.CertFile tls.CertKeyFile tls.InsecureSkipVerify with
    | Except.error err => Except.error (Abort.fatal ("redis tls config init: " ++ err))
    | Except.ok tlsConfig => Except.ok (some tlsConfig)
  else Except.ok none

/-- Function `newStandaloneClient`; `serial` identifies the client it allocates. -/
def newStandaloneClient (env : Env) (cfg : RedisConfig) (serial : Nat) : Except Abort Client :=
  let dialTimeout := if cfg.DialTimeout > 0 then wrap64 (cfg.DialTimeout * Second)
    else wrap64 (2 * Second)
  let readTimeout := if cfg.ReadTimeout > 0 then wrap64 (cfg.ReadTimeout * Second)
    else wrap64 (1 * Second)
  let writeTimeout := if cfg.WriteTimeout > 0 then wrap64 (cfg.WriteTimeout * Second)
    else wrap64 (1 * Second)
  let poolSize := if cfg.PoolSize > 0 then cfg.PoolSize else wrap64 (20 * env.numCPU)
  let minIdleConns := if cfg.MinIdleConns > 0 then cfg.MinIdleConns else wrap64 (10 * env.numCPU)
  match tlsConfigOf env cfg.TLS with
  | Except.error a => Except.error a
  | Except.ok tlsConfig =>
    Except.ok
      { serial := serial,
        options := ClientOptions.standalone
          { Addr := cfg.Addr, Password := cfg.Password, DB := cfg.DB,
            DialTimeout := dialTimeout, ReadTimeout := readTimeout,
            WriteTimeout := writeTimeout, PoolSize := poolSize,
            MinIdleConns := minIdleConns, IdleTimeout := wrap64 (3 * Minute),
            TLSConfig := tlsConfig } }

/-- Function `newSentinelClient`. -/
def newSentinelClient (env : Env) (cfg : RedisConfig) (serial : Nat) : Except Abort Client :=
  let sentinelAddrs := cfg.SentinelAddr.splitOn ","
  let dialTimeout := if cfg.DialTimeout > 0 then wrap64 (cfg.DialTimeout * Second)
    else wrap64 (2 * Second)
  let readTimeout := if cfg.ReadTimeout > 0 then wrap64 (cfg.ReadTimeout * Second)
    else wrap64 (1 * Second)
  let writeTimeout := if cfg.WriteTimeout > 0 then wrap64 (cfg.WriteTimeout * Second)
    else wrap64 (1 * Second)
  let poolSize := if cfg.PoolSize > 0 then cfg.PoolSize else wrap64 (20 * env.numCPU)
  let minIdleConns := if cfg.MinIdleConns > 0 then cfg.MinIdleConns else wrap64 (10 * env.numCPU)
  match tlsConfigOf env cfg.TLS with
  | Except.error a => Except.error a
  | Except.ok tlsConfig =>
    Except.ok
      { serial := serial,
        options := ClientOptions.failover
          { MasterName := cfg.MasterName, SentinelAddrs := sentinelAddrs, DB := cfg.DB,
            Password := cfg.Password,
            SentinelPassword := if cfg.SentinelPassword != "" then cfg.SentinelPassword else "",
            DialTimeout := dialTimeout, ReadTimeout := readTimeout,
            WriteTimeout := writeTimeout, PoolSize := poolSize,
            MinIdleConns := minIdleConns, IdleTimeout := wrap64 (3 * Minute),
            TLSConfig := tlsConfig } }

/-- Function `initRedisClient`: topology by `redisConfig.Type`, then a ping whose
failure panics unless `debugMode`. -/
def initRedisClient (env : Env) (debugMode : Bool) (redisConfig : RedisConfig) (serial : Nat) :
    Except Abort Client :=
  let built :=
    if redisConfig.Type_ = ModeStandalone then newStandaloneClient env redisConfig serial
    else if redisConfig.Type_ = ModeSentinel then newSentinelClient env redisConfig serial
    else Except.error (Abort.panic
      "init redis client fail, invalid redis.id, should be `standalone` or `sentinel`")
  match built with
  | Except.error a => Except.error a
  | Except.ok cli =>
    match env.ping cli with
    | some err => if !debugMode then Except.error (Abort.panic err) else Except.ok cli
    | none => Except.ok cli

/-- The package variables of `init.go` (`rds`, `mq` and the two `sync.Once`, `true`
once done), and the number of invocations of `initRedisClient` so far. -/
structure Handles where
  rds : Option Client
  mq : Option Client
  redisClientInitOnce : Bool
  mqRedisClientInitOnce : Bool
  initCalls : Nat
  deriving DecidableEq, Repr

/-- The package variables at process start. -/
def Handles.init : Handles :=
  { rds := none, mq := none, redisClientInitOnce := false, mqRedisClientInitOnce := false,
    initCalls := 0 }

/-- How a call ended. -/
inductive Outcome where
  | returned
  | aborted (a : Abort)
  deriving DecidableEq, Repr

/-- Function `InitRedisClient`: `if rds == nil { redisClientInitOnce.Do(...) }`. A
`sync.Once` is done after its function panicked; after `log.Fatalf` the process is
gone and no deferred marking runs. -/
def InitRedisClient (env : Env) (debugMode : Bool) (redisConfig : RedisConfig) (s : Handles) :
    Handles × Outcome :=
  match s.rds with
  | some _ => (s, Outcome.returned)
  | none =>
    if s.redisClientInitOnce then (s, Outcome.returned)
    else
      match initRedisClient env debugMode redisConfig s.initCalls with
      | Except.ok cli =>
        ({ s with rds := some cli, redisClientInitOnce := true, initCalls := s.initCalls + 1 },
          Outcome.returned)
      | Except.error (Abort.panic m) =>
        ({ s with redisClientInitOnce := true, initCalls := s.initCalls + 1 },
          Outcome.aborted (Abort.panic m))
      | Except.error (Abort.fatal m) =>
        ({ s with initCalls := s.initCalls + 1 }, Outcome.aborted (Abort.fatal m))

/-- Function `InitMQRedisClient`: `if mq == nil { mqRedisClientInitOnce.Do(...) }`. -/
def InitMQRedisClient (env : Env) (debugMode : Bool) (redisConfig : RedisConfig) (s : Handles) :
    Handles × Outcome :=
  match s.mq with
  | some _ => (s, Outcome.returned)
  | none =>
    if s.mqRedisClientInitOnce then (s, Outcome.returned)
    else
      match initRedisClient env debugMode redisConfig s.initCalls with
      | Except.ok cli =>
        ({ s with mq := some cli, mqRedisClientInitOnce := true, initCalls := s.initCalls + 1 },
          Outcome.returned)
      | Except.error (Abort.panic m) =>
        ({ s with mqRedisClientInitOnce := true, initCalls := s.initCalls + 1 },
          Outcome.aborted (Abort.panic m))
      | Except.error (Abort.fatal m) =>
        ({ s with initCalls := s.initCalls + 1 }, Outcome.aborted (Abort.fatal m))

/-- Function `GetDefaultRedisClient`. -/
def GetDefaultRedisClient (s : Handles) : Option Client := s.rds

/-- Function `GetDefaultMQRedisClient`. -/
def GetDefaultMQRedisClient (s : Handles) : Option Client := s.mq

/-- One call of either initialiser, with its arguments. -/
inductive InitCall where
  | cache (debugMode : Bool) (redisConfig : RedisConfig)
  | mq (debugMode : Bool) (redisConfig : RedisConfig)
  deriving DecidableEq, Repr

/-- Perform one initialiser call. -/
def InitCall.run (env : Env) (c : InitCall) (s : Handles) : Handles × Outcome :=
  match c with
  | InitCall.cache debugMode redisConfig => InitRedisClient env debugMode redisConfig s
  | InitCall.mq debugMode redisConfig => InitMQRedisClient env debugMode redisConfig s

/-- Perform a sequence of initialiser calls, stopping at the first that does not
return. -/
def runCalls (env : Env) : List InitCall → Handles → Handles × Outcome
  | [], s => (s, Outcome.returned)
  | c :: rest, s =>
    match c.run env s with
    | (s1, Outcome.returned) => runCalls env rest s1
    | (s1, Outcome.aborted a) => (s1, Outcome.aborted a)

/-! ## Concrete inputs -/

/-- A batch of one item. -/
def sampleBody : List SubjectTemplateGroupSerializer :=
  [{ Type_ := "user", ID := "admin", TemplateID := 1, GroupID := 2, ExpiredAt := 4102444800 }]

/-- Budget 3, every item valid, both mutations deadlock on their first two
invocations and succeed afterwards. -/
def depsDeadlockTwice : Deps :=
  { validItem := fun _ => none,
    DBDeadLockRetryCount := 3,
    BulkCreateSubjectTemplateGroup := fun n _ =>
      if n < 2 then some (StorageError.deadlock "Error 1213: Deadlock found") else none,
    BulkDeleteSubjectTemplateGroup := fun n _ =>
      if n < 2 then some (StorageError.deadlock "Error 1213: Deadlock found") else none }

/-- Budget 3, every item valid, both mutations deadlock on every invocation. -/
def depsDeadlockAlways : Deps :=
  { validItem := fun _ => none,
    DBDeadLockRetryCount := 3,
    BulkCreateSubjectTemplateGroup := fun n _ =>
      some (StorageError.deadlock ("Error 1213: Deadlock found, attempt " ++ toString n)),
    BulkDeleteSubjectTemplateGroup := fun n _ =>
      some (StorageError.deadlock ("Error 1213: Deadlock found, attempt " ++ toString n)) }

/-- Budget 3, every item valid, both mutations fail with a duplicate-key error on
every invocation. -/
def depsOtherError : Deps :=
  { validItem := fun _ => none,
    DBDeadLockRetryCount := 3,
    BulkCreateSubjectTemplateGroup := fun _ _ =>
      some (StorageError.other "Error 1062: Duplicate entry"),
    BulkDeleteSubjectTemplateGroup := fun _ _ =>
      some (StorageError.other "Error 1062: Duplicate entry") }

/-- Budget 3, every item valid, both mutations succeed on every invocation. -/
def depsAlwaysOk : Deps :=
  { validItem := fun _ => none,
    DBDeadLockRetryCount := 3,
    BulkCreateSubjectTemplateGroup := fun _ _ => none,
    BulkDeleteSubjectTemplateGroup := fun _ _ => none }

/-- Budget 3, every item valid, both mutations deadlock on their first invocation
and succeed afterwards. -/
def depsDeadlockOnce : Deps :=
  { validItem := fun _ => none,
    DBDeadLockRetryCount := 3,
    BulkCreateSubjectTemplateGroup := fun n _ =>
      if n = 0 then some (StorageError.deadlock "Error 1213: Deadlock found") else none,
    BulkDeleteSubjectTemplateGroup := fun n _ =>
      if n = 0 then some (StorageError.deadlock "Error 1213: Deadlock found") else none }

/-- A string without the separator `:`. -/
def colonFree (s : String) : Bool := !s.data.contains ':'

/-- The key of `TestRemoteResourceListCacheKey_Key` (no tenant set). -/
def testKey : RemoteResourceListCacheKey :=
  { Tenant := "", System := "test", Type_ := "host", IDs := "1,2", Fields := "id;name" }

/-- A second key with every component set. -/
def tenantKey : RemoteResourceListCacheKey :=
  { Tenant := "default", System := "bk_cmdb", Type_ := "host", IDs := "1,2", Fields := "id;name" }

/-- A cache as in the second half of `TestListRemoteResources`: the loader fails on
every invocation. -/
def failingCache : CacheDeps :=
  { hash := fun x => "md5(" ++ x ++ ")",
    joinIDs := String.intercalate ",",
    joinFields := String.intercalate ";",
    retrieve := fun _ _ => Except.error "error here",
    expiration := 300 }

/-- A cache as in the first half of `TestListRemoteResources`: the loader returns an
empty list. -/
def workingCache : CacheDeps :=
  { hash := fun x => "md5(" ++ x ++ ")",
    joinIDs := String.intercalate ",",
    joinFields := String.intercalate ";",
    retrieve := fun _ _ => Except.ok [],
    expiration := 300 }

/-- Both tiers empty, loader never invoked. -/
def emptyCache : CacheState := { localTier := [], sharedTier := [], loads := 0 }

/-- Surroundings with four CPUs, a TLS constructor that accepts its inputs, and a
redis that answers every ping. -/
def reachableEnv : Env :=
  { numCPU := 4,
    newTLSConfig := fun ca cert key skip =>
      Except.ok { certCaFile := ca, certFile := cert, certKeyFile := key,
                  insecureSkipVerify := skip },
    ping := fun _ => none }

/-- A standalone configuration without TLS and with default timeouts. -/
def standaloneConfig : RedisConfig :=
  { Type_ := "standalone", Addr := "127.0.0.1:6379", Password := "", DB := 0,
    DialTimeout := 0, ReadTimeout := 0, WriteTimeout := 0, PoolSize := 0, MinIdleConns := 0,
    SentinelAddr := "", MasterName := "", SentinelPassword := "",
    TLS := { Enabled := false, CertCaFile := "", CertFile := "", CertKeyFile := "",
             InsecureSkipVerify := false } }

/-- A sentinel configuration with two sentinels. -/
def sentinelConfig : RedisConfig :=
  { Type_ := "sentinel", Addr := "", Password := "secret", DB := 1,
    DialTimeout := 5, ReadTimeout := 3, WriteTimeout := 3, PoolSize := 100, MinIdleConns := 10,
    SentinelAddr := "10.0.0.1:26379,10.0.0.2:26379", MasterName := "mymaster",
    SentinelPassword := "",
    TLS := { Enabled := false, CertCaFile := "", CertFile := "", CertKeyFile := "",
             InsecureSkipVerify := false } }

/-! ## Retry loops: general lemmas -/

theorem createLoop_stops (mutate : Nat → Option StorageError) :
    ∀ (K remaining : Nat) (st : LoopState), K < remaining →
      (∀ j, j < K → IsDeadLockError (mutate (st.calls + j)) = true) →
      IsDeadLockError (mutate (st.calls + K)) = false →
      createLoop mutate remaining st =
        { err := mutate (st.calls + K), calls := st.calls + K + 1, sleeps := st.sleeps + K } := by
  intro K
  induction K with
  | zero =>
    intro remaining st hlt _ hlast
    obtain ⟨r, rfl⟩ : ∃ r, remaining = r + 1 := ⟨remaining - 1, by omega⟩
    simp only [Nat.add_zero] at hlast
    simp [createLoop, hlast]
  | succ K ih =>
    intro remaining st hlt hdead hlast
    obtain ⟨r, rfl⟩ : ∃ r, remaining = r + 1 := ⟨remaining - 1, by omega⟩
    have h0 : IsDeadLockError (mutate st.calls) = true := by
      simpa using hdead 0 (Nat.succ_pos K)
    have hrec := ih r { err := mutate st.calls, calls := st.calls + 1, sleeps := st.sleeps + 1 }
      (by omega)
      (by
        intro j hj
        have := hdead (j + 1) (by omega)
        simpa [Nat.add_assoc, Nat.add_comm 1 j] using this)
      (by simpa [Nat.add_assoc, Nat.add_comm 1 K] using hlast)
    simp only [createLoop, h0, Bool.not_true, Bool.false_eq_true, if_false]
    rw [hrec]
    simp [Nat.add_assoc, Nat.add_comm 1 K]

theorem createLoop_exhausts (mutate : Nat → Option StorageError) :
    ∀ (remaining : Nat) (st : LoopState),
      (∀ j, j < remaining → IsDeadLockError (mutate (st.calls + j)) = true) →
      createLoop mutate (remaining + 1) st =
        { err := mutate (st.calls + remaining), calls := st.calls + remaining + 1,
          sleeps := st.sleeps + remaining +
            (if IsDeadLockError (mutate (st.calls + remaining)) then 1 else 0) } := by
  intro remaining
  induction remaining with
  | zero =>
    intro st _
    cases h : IsDeadLockError (mutate st.calls) <;> simp [createLoop, h]
  | succ r ih =>
    intro st hdead
    have h0 : IsDeadLockError (mutate st.calls) = true := by
      simpa using hdead 0 (Nat.succ_pos r)
    have hrec := ih { err := mutate st.calls, calls := st.calls + 1, sleeps := st.sleeps + 1 }
      (by
        intro j hj
        have := hdead (j + 1) (by omega)
        simpa [Nat.add_assoc, Nat.add_comm 1 j] using this)
    rw [createLoop]
    simp only [h0, Bool.not_true, Bool.false_eq_true, if_false]
    rw [hrec]
    simp [Nat.add_assoc, Nat.add_comm 1 r]

theorem deleteLoop_stops (mutate : Nat → Option StorageError) :
    ∀ (K remaining : Nat) (st : LoopState), K < remaining →
      (∀ j, j < K → IsDeadLockError (mutate (st.calls + j)) = false) →
      IsDeadLockError (mutate (st.calls + K)) = true →
      deleteLoop mutate remaining st =
        { err := mutate (st.calls + K), calls := st.calls + K + 1, sleeps := st.sleeps + K } := by
  intro K
  induction K with
  | zero =>
    intro remaining st hlt _ hlast
    obtain ⟨r, rfl⟩ : ∃ r, remaining = r + 1 := ⟨remaining - 1, by omega⟩
    simp only [Nat.add_zero] at hlast
    simp [deleteLoop, hlast]
  | succ K ih =>
    intro remaining st hlt hfree hlast
    obtain ⟨r, rfl⟩ : ∃ r, remaining = r + 1 := ⟨remaining - 1, by omega⟩
    have h0 : IsDeadLockError (mutate st.calls) = false := by
      simpa using hfree 0 (Nat.succ_pos K)
    have hrec := ih r { err := mutate st.calls, calls := st.calls + 1, sleeps := st.sleeps + 1 }
      (by omega)
      (by
        intro j hj
        have := hfree (j + 1) (by omega)
        simpa [Nat.add_assoc, Nat.add_comm 1 j] using this)
      (by simpa [Nat.add_assoc, Nat.add_comm 1 K] using hlast)
    simp only [deleteLoop, h0, Bool.false_eq_true, if_false]
    rw [hrec]
    simp [Nat.add_assoc, Nat.add_comm 1 K]

theorem deleteLoop_exhausts (mutate : Nat → Option StorageError) :
    ∀ (remaining : Nat) (st : LoopState),
      (∀ j, j < remaining → IsDeadLockError (mutate (st.calls + j)) = false) →
      deleteLoop mutate remaining st =
        { err := if remaining = 0 then st.err else mutate (st.calls + remaining - 1),
          calls := st.calls + remaining, sleeps := st.sleeps + remaining } := by
  intro remaining
  induction remaining with
  | zero => intro st _; simp [deleteLoop]
  | succ r ih =>
    intro st hfree
    have h0 : IsDeadLockError (mutate st.calls) = false := by
      simpa using hfree 0 (Nat.succ_pos r)
    have hrec := ih { err := mutate st.calls, calls := st.calls + 1, sleeps := st.sleeps + 1 }
      (by
        intro j hj
        have := hfree (j + 1) (by omega)
        simpa [Nat.add_assoc, Nat.add_comm 1 j] using this)
    rw [deleteLoop]
    simp only [h0, Bool.false_eq_true, if_false]
    rw [hrec]
    rcases Nat.eq_zero_or_pos r with h | h
    · subst h; simp
    · have h1 : r ≠ 0 := by omega
      have h2 : st.calls + 1 + r - 1 = st.calls + (r + 1) - 1 := by omega
      simp [h1, h2, Nat.add_assoc, Nat.add_comm 1 r]

/-- After the delete loop the variable `err` is what it was before when nothing was
invoked, and the error of the last invocation otherwise. -/
theorem deleteLoop_last (mutate : Nat → Option StorageError) :
    ∀ (remaining : Nat) (st : LoopState),
      st.calls ≤ (deleteLoop mutate remaining st).calls ∧
      (deleteLoop mutate remaining st).err =
        if (deleteLoop mutate remaining st).calls = st.calls then st.err
        else mutate ((deleteLoop mutate remaining st).calls - 1) := by
  intro remaining
  induction remaining with
  | zero => intro st; simp [deleteLoop]
  | succ r ih =>
    intro st
    rw [deleteLoop]
    cases h0 : IsDeadLockError (mutate st.calls)
    · have hrec := ih { err := mutate st.calls, calls := st.calls + 1, sleeps := st.sleeps + 1 }
      simp only [Bool.false_eq_true, if_false]
      obtain ⟨hle, herr⟩ := hrec
      simp only at hle herr
      refine ⟨by omega, ?_⟩
      rw [herr]
      by_cases hc : (deleteLoop mutate r
          { err := mutate st.calls, calls := st.calls + 1, sleeps := st.sleeps + 1 }).calls
            = st.calls + 1
      · have hne : st.calls + 1 ≠ st.calls := by omega
        simp [hc, hne]
      · have hne : (deleteLoop mutate r
          { err := mutate st.calls, calls := st.calls + 1, sleeps := st.sleeps + 1 }).calls
            ≠ st.calls := by omega
        simp [hc, hne]
    · simp

theorem create_of_valid (d : Deps) (body : List SubjectTemplateGroupSerializer)
    (hvalid : (ValidateArray d.validItem body).1 = true) :
    BatchCreateSubjectTemplateGroup d (Except.ok body) =
      respond "BatchCreateSubjectTemplateGroup" "ctl.BulkCreateSubjectTemplateGroup"
        (convertToPapSubjectTemplateGroup body)
        (createLoop (fun n => d.BulkCreateSubjectTemplateGroup n
          (convertToPapSubjectTemplateGroup body)) d.DBDeadLockRetryCount LoopState.init) := by
  unfold BatchCreateSubjectTemplateGroup
  rcases hv : ValidateArray d.validItem body with ⟨ok, message⟩
  rw [hv] at hvalid
  simp only at hvalid
  subst hvalid
  simp only [hv]

theorem delete_of_valid (d : Deps) (body : List SubjectTemplateGroupSerializer)
    (hvalid : (ValidateArray d.validItem body).1 = true) :
    BatchDeleteSubjectTemplateGroup d (Except.ok body) =
      respond "BatchDeleteSubjectTemplateGroup" "ctl.BulkDeleteSubjectTemplateGroup"
        (convertToPapSubjectTemplateGroup body)
        (deleteLoop (fun n => d.BulkDeleteSubjectTemplateGroup n
          (convertToPapSubjectTemplateGroup body)) d.DBDeadLockRetryCount LoopState.init) := by
  unfold BatchDeleteSubjectTemplateGroup
  rcases hv : ValidateArray d.validItem body with ⟨ok, message⟩
  rw [hv] at hvalid
  simp only at hvalid
  subst hvalid
  simp only [hv]

theorem isDeadLockError_true_iff (err : Option StorageError) :
    IsDeadLockError err = true ↔ ∃ detail, err = some (StorageError.deadlock detail) := by
  cases err with
  | none => simp [IsDeadLockError]
  | some e => cases e <;> simp [IsDeadLockError]

/-! ## Handler: the create path -/

/-- C1: in `BatchCreateSubjectTemplateGroup` with budget `N`, for a valid non-empty
batch and `K < N`, when attempts `1..K` return a deadlock-classified error and attempt
`K+1` returns nil, the mutation is invoked exactly `K+1` times (with `K` sleeps in
between) and the response is the success response. -/
theorem create_retry_success (d : Deps) (body : List SubjectTemplateGroupSerializer) (K : Nat)
    (hvalid : (ValidateArray d.validItem body).1 = true)
    (hK : K < d.DBDeadLockRetryCount)
    (hdead : ∀ j, j < K → IsDeadLockError
      (d.BulkCreateSubjectTemplateGroup j (convertToPapSubjectTemplateGroup body)) = true)
    (hok : d.BulkCreateSubjectTemplateGroup K (convertToPapSubjectTemplateGroup body) = none) :
    body ≠ [] ∧
    BatchCreateSubjectTemplateGroup d (Except.ok body) =
      { response := Response.success "ok", calls := K + 1, sleeps := K } := by
  refine ⟨?_, ?_⟩
  · rintro rfl
    simp [ValidateArray] at hvalid
  · rw [create_of_valid d body hvalid]
    rw [createLoop_stops _ K d.DBDeadLockRetryCount LoopState.init hK
      (by simpa [LoopState.init] using hdead)
      (by simp [LoopState.init, hok, IsDeadLockError])]
    simp [LoopState.init, hok, respond]

/-- C2: in `BatchCreateSubjectTemplateGroup` with budget `N >= 1`, when every attempt
returns a deadlock-classified error, the mutation is invoked exactly `N` times, the
response is a system error and not a success, and the surfaced error is the error of
the `N`-th attempt wrapped with the operation name and the batch. -/
theorem create_retry_exhausted (d : Deps) (body : List SubjectTemplateGroupSerializer)
    (hvalid : (ValidateArray d.validItem body).1 = true)
    (hN : 1 ≤ d.DBDeadLockRetryCount)
    (hdead : ∀ j, j < d.DBDeadLockRetryCount → IsDeadLockError
      (d.BulkCreateSubjectTemplateGroup j (convertToPapSubjectTemplateGroup body)) = true) :
    ∃ e, d.BulkCreateSubjectTemplateGroup (d.DBDeadLockRetryCount - 1)
        (convertToPapSubjectTemplateGroup body) = some e ∧
      IsDeadLockError (some e) = true ∧
      BatchCreateSubjectTemplateGroup d (Except.ok body) =
        { response := Response.systemError
            { layer := "Handler", function := "BatchCreateSubjectTemplateGroup",
              subFunction := "ctl.BulkCreateSubjectTemplateGroup",
              format := "subjectTemplateGroups=`%+v`",
              args := convertToPapSubjectTemplateGroup body, err := e },
          calls := d.DBDeadLockRetryCount, sleeps := d.DBDeadLockRetryCount } ∧
      ∀ message, (BatchCreateSubjectTemplateGroup d (Except.ok body)).response ≠
        Response.success message := by
  obtain ⟨r, hr⟩ : ∃ r, d.DBDeadLockRetryCount = r + 1 :=
    ⟨d.DBDeadLockRetryCount - 1, by omega⟩
  have hlast := hdead r (by omega)
  obtain ⟨detail, hdetail⟩ := (isDeadLockError_true_iff _).1 hlast
  have hrun : BatchCreateSubjectTemplateGroup d (Except.ok body) =
      { response := Response.systemError
          { layer := "Handler", function := "BatchCreateSubjectTemplateGroup",
            subFunction := "ctl.BulkCreateSubjectTemplateGroup",
            format := "subjectTemplateGroups=`%+v`",
            args := convertToPapSubjectTemplateGroup body,
            err := StorageError.deadlock detail },
        calls := d.DBDeadLockRetryCount, sleeps := d.DBDeadLockRetryCount } := by
    rw [create_of_valid d body hvalid, hr]
    rw [createLoop_exhausts _ r LoopState.init
      (by
        intro j hj
        simpa [LoopState.init] using hdead j (by omega))]
    simp [LoopState.init, hdetail, respond, IsDeadLockError]
  refine ⟨StorageError.deadlock detail, ?_, ?_, hrun, ?_⟩
  · rw [hr]; simpa using hdetail
  · rfl
  · intro message
    rw [hrun]
    simp

/-- C3: in `BatchCreateSubjectTemplateGroup` (budget at least one attempt), when the
first attempt returns an error that is not deadlock-classified, the mutation is
invoked exactly once, no sleep is performed, and that error is surfaced wrapped as a
system error. -/
theorem create_other_error_no_retry (d : Deps) (body : List SubjectTemplateGroupSerializer)
    (e : StorageError)
    (hvalid : (ValidateArray d.validItem body).1 = true)
    (hN : 0 < d.DBDeadLockRetryCount)
    (hfirst : d.BulkCreateSubjectTemplateGroup 0 (convertToPapSubjectTemplateGroup body) = some e)
    (hother : IsDeadLockError (some e) = false) :
    BatchCreateSubjectTemplateGroup d (Except.ok body) =
      { response := Response.systemError
          { layer := "Handler", function := "BatchCreateSubjectTemplateGroup",
            subFunction := "ctl.BulkCreateSubjectTemplateGroup",
            format := "subjectTemplateGroups=`%+v`",
            args := convertToPapSubjectTemplateGroup body, err := e },
        calls := 1, sleeps := 0 } := by
  rw [create_of_valid d body hvalid]
  rw [createLoop_stops _ 0 d.DBDeadLockRetryCount LoopState.init hN
    (by intro j hj; omega)
    (by simpa [LoopState.init, hfirst] using hother)]
  simp [LoopState.init, hfirst, respond]

theorem create_retry_success_witness :
    (ValidateArray depsDeadlockTwice.validItem sampleBody).1 = true ∧
    2 < depsDeadlockTwice.DBDeadLockRetryCount ∧
    BatchCreateSubjectTemplateGroup depsDeadlockTwice (Except.ok sampleBody) =
      { response := Response.success "ok", calls := 3, sleeps := 2 } :=
  ⟨by decide, by decide,
    (create_retry_success depsDeadlockTwice sampleBody 2 (by decide) (by decide)
      (by decide) rfl).2⟩

theorem create_retry_exhausted_witness :
    (ValidateArray depsDeadlockAlways.validItem sampleBody).1 = true ∧
    ∃ e, depsDeadlockAlways.BulkCreateSubjectTemplateGroup 2
        (convertToPapSubjectTemplateGroup sampleBody) = some e ∧
      (BatchCreateSubjectTemplateGroup depsDeadlockAlways (Except.ok sampleBody)).calls = 3 ∧
      ((BatchCreateSubjectTemplateGroup depsDeadlockAlways (Except.ok sampleBody)).response =
        Response.systemError
          { layer := "Handler", function := "BatchCreateSubjectTemplateGroup",
            subFunction := "ctl.BulkCreateSubjectTemplateGroup",
            format := "subjectTemplateGroups=`%+v`",
            args := convertToPapSubjectTemplateGroup sampleBody, err := e }) := by
  refine ⟨by decide, ?_⟩
  obtain ⟨e, h1, _, h3, _⟩ := create_retry_exhausted depsDeadlockAlways sampleBody
    (by decide) (by decide) (by intro j _; rfl)
  exact ⟨e, h1, by rw [h3]; rfl, by rw [h3]⟩

theorem create_other_error_no_retry_witness :
    (ValidateArray depsOtherError.validItem sampleBody).1 = true ∧
    BatchCreateSubjectTemplateGroup depsOtherError (Except.ok sampleBody) =
      { response := Response.systemError
          { layer := "Handler", function := "BatchCreateSubjectTemplateGroup",
            subFunction := "ctl.BulkCreateSubjectTemplateGroup",
            format := "subjectTemplateGroups=`%+v`",
            args := convertToPapSubjectTemplateGroup sampleBody,
            err := StorageError.other "Error 1062: Duplicate entry" },
        calls := 1, sleeps := 0 } :=
  ⟨by decide,
    create_other_error_no_retry depsOtherError sampleBody
      (StorageError.other "Error 1062: Duplicate entry") (by decide) (by decide) rfl rfl⟩

/-! ## Handler: the delete path -/

theorem respond_calls (function subFunction : String) (records : List SubjectTemplateGroup)
    (st : LoopState) : (respond function subFunction records st).calls = st.calls := by
  unfold respond
  cases st.err <;> rfl

theorem respond_sleeps (function subFunction : String) (records : List SubjectTemplateGroup)
    (st : LoopState) : (respond function subFunction records st).sleeps = st.sleeps := by
  unfold respond
  cases st.err <;> rfl

/-- C4, evaluated on the code: with budget 3 and the same per-attempt outcomes handed
to both loops, the two handlers differ. When every attempt succeeds the create handler
invokes its mutation once and the delete handler three times (sleeping three times);
when the first attempt deadlocks and the next succeeds the create handler retries and
answers success after two attempts, the delete handler stops after one attempt and
answers a system error. -/
theorem delete_differs_from_create :
    (BatchCreateSubjectTemplateGroup depsAlwaysOk (Except.ok sampleBody) =
        { response := Response.success "ok", calls := 1, sleeps := 0 } ∧
      BatchDeleteSubjectTemplateGroup depsAlwaysOk (Except.ok sampleBody) =
        { response := Response.success "ok", calls := 3, sleeps := 3 }) ∧
    (BatchCreateSubjectTemplateGroup depsDeadlockOnce (Except.ok sampleBody) =
        { response := Response.success "ok", calls := 2, sleeps := 1 } ∧
      BatchDeleteSubjectTemplateGroup depsDeadlockOnce (Except.ok sampleBody) =
        { response := Response.systemError
            { layer := "Handler", function := "BatchDeleteSubjectTemplateGroup",
              subFunction := "ctl.BulkDeleteSubjectTemplateGroup",
              format := "subjectTemplateGroups=`%+v`",
              args := convertToPapSubjectTemplateGroup sampleBody,
              err := StorageError.deadlock "Error 1213: Deadlock found" },
          calls := 1, sleeps := 0 }) := by
  refine ⟨⟨?_, ?_⟩, ?_, ?_⟩ <;> rfl

/-- C9: the loop of `BatchDeleteSubjectTemplateGroup` with budget `N` stops right after
the first deadlock-classified outcome and goes on (sleeping each time) after every
other outcome, nil included: the number of attempts is the minimum of `N` and the
position of the first deadlock-classified outcome (`N` when there is none among the
first `N`), the response is decided by the error of the last attempt alone, a delete
whose every attempt succeeds is executed exactly `N` times, and a delete that deadlocks
on its first attempt is surfaced as a system error after exactly one attempt. -/
theorem delete_retry_inverted (d : Deps) (body : List SubjectTemplateGroupSerializer)
    (hvalid : (ValidateArray d.validItem body).1 = true) :
    (∀ p,
      (∀ j, j < p → IsDeadLockError
        (d.BulkDeleteSubjectTemplateGroup j (convertToPapSubjectTemplateGroup body)) = false) →
      IsDeadLockError
        (d.BulkDeleteSubjectTemplateGroup p (convertToPapSubjectTemplateGroup body)) = true →
      (BatchDeleteSubjectTemplateGroup d (Except.ok body)).calls =
        min d.DBDeadLockRetryCount (p + 1) ∧
      (BatchDeleteSubjectTemplateGroup d (Except.ok body)).sleeps =
        min d.DBDeadLockRetryCount p) ∧
    ((∀ j, j < d.DBDeadLockRetryCount → IsDeadLockError
        (d.BulkDeleteSubjectTemplateGroup j (convertToPapSubjectTemplateGroup body)) = false) →
      (BatchDeleteSubjectTemplateGroup d (Except.ok body)).calls = d.DBDeadLockRetryCount ∧
      (BatchDeleteSubjectTemplateGroup d (Except.ok body)).sleeps = d.DBDeadLockRetryCount) ∧
    BatchDeleteSubjectTemplateGroup d (Except.ok body) =
      respond "BatchDeleteSubjectTemplateGroup" "ctl.BulkDeleteSubjectTemplateGroup"
        (convertToPapSubjectTemplateGroup body)
        { err :=
            if (BatchDeleteSubjectTemplateGroup d (Except.ok body)).calls = 0 then none
            else d.BulkDeleteSubjectTemplateGroup
              ((BatchDeleteSubjectTemplateGroup d (Except.ok body)).calls - 1)
              (convertToPapSubjectTemplateGroup body),
          calls := (BatchDeleteSubjectTemplateGroup d (Except.ok body)).calls,
          sleeps := (BatchDeleteSubjectTemplateGroup d (Except.ok body)).sleeps } ∧
    ((∀ j, j < d.DBDeadLockRetryCount →
        d.BulkDeleteSubjectTemplateGroup j (convertToPapSubjectTemplateGroup body) = none) →
      BatchDeleteSubjectTemplateGroup d (Except.ok body) =
        { response := Response.success "ok", calls := d.DBDeadLockRetryCount,
          sleeps := d.DBDeadLockRetryCount }) ∧
    (0 < d.DBDeadLockRetryCount → ∀ e,
      d.BulkDeleteSubjectTemplateGroup 0 (convertToPapSubjectTemplateGroup body) = some e →
      IsDeadLockError (some e) = true →
      BatchDeleteSubjectTemplateGroup d (Except.ok body) =
        { response := Response.systemError
            { layer := "Handler", function := "BatchDeleteSubjectTemplateGroup",
              subFunction := "ctl.BulkDeleteSubjectTemplateGroup",
              format := "subjectTemplateGroups=`%+v`",
              args := convertToPapSubjectTemplateGroup body, err := e },
          calls := 1, sleeps := 0 }) := by
  have hfree_run : (∀ j, j < d.DBDeadLockRetryCount → IsDeadLockError
        (d.BulkDeleteSubjectTemplateGroup j (convertToPapSubjectTemplateGroup body)) = false) →
      deleteLoop (fun n => d.BulkDeleteSubjectTemplateGroup n
          (convertToPapSubjectTemplateGroup body)) d.DBDeadLockRetryCount LoopState.init =
        { err := if d.DBDeadLockRetryCount = 0 then none
            else d.BulkDeleteSubjectTemplateGroup (d.DBDeadLockRetryCount - 1)
              (convertToPapSubjectTemplateGroup body),
          calls := d.DBDeadLockRetryCount, sleeps := d.DBDeadLockRetryCount } := by
    intro hfree
    rw [deleteLoop_exhausts _ d.DBDeadLockRetryCount LoopState.init
      (by simpa [LoopState.init] using hfree)]
    simp [LoopState.init]
  refine ⟨?_, ?_, ?_, ?_, ?_⟩
  · intro p hfree hdead
    rw [delete_of_valid d body hvalid, respond_calls, respond_sleeps]
    by_cases hp : p < d.DBDeadLockRetryCount
    · rw [deleteLoop_stops _ p d.DBDeadLockRetryCount LoopState.init hp
        (by simpa [LoopState.init] using hfree)
        (by simpa [LoopState.init] using hdead)]
      simp only [LoopState.init, Nat.zero_add]
      omega
    · rw [hfree_run (fun j hj => hfree j (by omega))]
      simp only
      omega
  · intro hfree
    rw [delete_of_valid d body hvalid, respond_calls, respond_sleeps, hfree_run hfree]
    exact ⟨rfl, rfl⟩
  · rw [delete_of_valid d body hvalid, respond_calls, respond_sleeps]
    have hlast := (deleteLoop_last (fun n => d.BulkDeleteSubjectTemplateGroup n
      (convertToPapSubjectTemplateGroup body)) d.DBDeadLockRetryCount LoopState.init).2
    simp only [LoopState.init] at hlast
    simp only [LoopState.init]
    rw [← hlast]
  · intro hnil
    rw [delete_of_valid d body hvalid,
      hfree_run (fun j hj => by rw [hnil j hj]; rfl)]
    rcases Nat.eq_zero_or_pos d.DBDeadLockRetryCount with h | h
    · simp [h, respond]
    · have h1 : d.DBDeadLockRetryCount ≠ 0 := by omega
      simp [h1, hnil (d.DBDeadLockRetryCount - 1) (by omega), respond]
  · intro hN e hfirst hdead
    rw [delete_of_valid d body hvalid]
    rw [deleteLoop_stops _ 0 d.DBDeadLockRetryCount LoopState.init hN
      (by intro j hj; omega)
      (by simpa [LoopState.init, hfirst] using hdead)]
    simp [LoopState.init, hfirst, respond]

theorem delete_retry_inverted_witness :
    (ValidateArray depsAlwaysOk.validItem sampleBody).1 = true ∧
    BatchDeleteSubjectTemplateGroup depsAlwaysOk (Except.ok sampleBody) =
      { response := Response.success "ok", calls := 3, sleeps := 3 } :=
  ⟨by decide,
    (delete_retry_inverted depsAlwaysOk sampleBody (by decide)).2.2.2.1 (fun _ _ => rfl)⟩

/-! ## Cache key -/

theorem joined_data (k : RemoteResourceListCacheKey) :
    k.joined.data = k.Tenant.data ++ ':' :: (k.System.data ++ ':' :: (k.Type_.data ++
      ':' :: (k.IDs.data ++ ':' :: k.Fields.data))) := by
  have hc : (":" : String).data = [':'] := rfl
  simp [RemoteResourceListCacheKey.joined, String.data_append, hc]

theorem split_at_colon : ∀ (a b x y : List Char), ':' ∉ a → ':' ∉ b →
    a ++ ':' :: x = b ++ ':' :: y → a = b ∧ x = y := by
  intro a
  induction a with
  | nil =>
    intro b x y _ hb h
    cases b with
    | nil => simpa using h
    | cons c b =>
      simp only [List.nil_append, List.cons_append, List.cons.injEq] at h
      exact absurd (by rw [← h.1]; simp) hb
  | cons c a ih =>
    intro b x y ha hb h
    cases b with
    | nil =>
      simp only [List.nil_append, List.cons_append, List.cons.injEq] at h
      exact absurd (by rw [h.1]; simp) ha
    | cons c2 b =>
      simp only [List.cons_append, List.cons.injEq] at h
      have hrec := ih b x y (fun hm => ha (List.mem_cons_of_mem _ hm))
        (fun hm => hb (List.mem_cons_of_mem _ hm)) h.2
      exact ⟨by rw [h.1, hrec.1], hrec.2⟩

theorem colonFree_iff (s : String) : colonFree s = true ↔ ':' ∉ s.data := by
  simp [colonFree]

/-- C5: `Key` is the digest of `Tenant + ":" + System + ":" + Type + ":" + IDs + ":" +
Fields` (the colon-joined fields, taken as they are) for every value of the five
fields; the key of the test is the digest of `:test:host:1,2:id;name`; ids and fields
in another order or repeated are hashed as given; keys with identical fields have
identical digests. -/
theorem key_is_digest_of_joined_fields (hash : String → String) :
    (∀ k : RemoteResourceListCacheKey, k.Key hash =
      hash (k.Tenant ++ ":" ++ k.System ++ ":" ++ k.Type_ ++ ":" ++ k.IDs ++ ":" ++ k.Fields)) ∧
    (∀ k : RemoteResourceListCacheKey, k.Key hash =
      hash (String.intercalate ":" [k.Tenant, k.System, k.Type_, k.IDs, k.Fields])) ∧
    testKey.Key hash = hash ":test:host:1,2:id;name" ∧
    ({ testKey with IDs := "2,1" } : RemoteResourceListCacheKey).Key hash =
      hash ":test:host:2,1:id;name" ∧
    ({ testKey with IDs := "1,1,2", Fields := "name;id" } : RemoteResourceListCacheKey).Key hash =
      hash ":test:host:1,1,2:name;id" ∧
    (∀ k1 k2 : RemoteResourceListCacheKey, k1.Tenant = k2.Tenant → k1.System = k2.System →
      k1.Type_ = k2.Type_ → k1.IDs = k2.IDs → k1.Fields = k2.Fields →
      k1.Key hash = k2.Key hash) := by
  refine ⟨fun _ => rfl, fun _ => rfl, ?_, ?_, ?_, ?_⟩
  · exact congrArg hash (by decide)
  · exact congrArg hash (by decide)
  · exact congrArg hash (by decide)
  · intro k1 k2 h1 h2 h3 h4 h5
    simp only [RemoteResourceListCacheKey.Key, RemoteResourceListCacheKey.joined, h1, h2, h3,
      h4, h5]

theorem key_is_digest_of_joined_fields_witness :
    testKey.Key String.toUpper =
      ({ Tenant := "", System := "te" ++ "st", Type_ := "host", IDs := "1,2",
         Fields := "id;name" } : RemoteResourceListCacheKey).Key String.toUpper :=
  (key_is_digest_of_joined_fields String.toUpper).2.2.2.2.2 testKey
    { Tenant := "", System := "te" ++ "st", Type_ := "host", IDs := "1,2", Fields := "id;name" }
    rfl (by decide) rfl rfl rfl

/-- C6: when two key tuples differ in exactly one of the five components and agree on
the other four, the colon-joined strings fed to the digest differ, so equal keys can
only come from a collision of the digest. -/
theorem joined_differs_when_one_component_differs (k1 k2 : RemoteResourceListCacheKey)
    (h : (k1.Tenant ≠ k2.Tenant ∧ k1.System = k2.System ∧ k1.Type_ = k2.Type_ ∧
          k1.IDs = k2.IDs ∧ k1.Fields = k2.Fields) ∨
        (k1.Tenant = k2.Tenant ∧ k1.System ≠ k2.System ∧ k1.Type_ = k2.Type_ ∧
          k1.IDs = k2.IDs ∧ k1.Fields = k2.Fields) ∨
        (k1.Tenant = k2.Tenant ∧ k1.System = k2.System ∧ k1.Type_ ≠ k2.Type_ ∧
          k1.IDs = k2.IDs ∧ k1.Fields = k2.Fields) ∨
        (k1.Tenant = k2.Tenant ∧ k1.System = k2.System ∧ k1.Type_ = k2.Type_ ∧
          k1.IDs ≠ k2.IDs ∧ k1.Fields = k2.Fields) ∨
        (k1.Tenant = k2.Tenant ∧ k1.System = k2.System ∧ k1.Type_ = k2.Type_ ∧
          k1.IDs = k2.IDs ∧ k1.Fields ≠ k2.Fields)) :
    k1.joined ≠ k2.joined ∧
    ∀ hash : String → String, k1.Key hash = k2.Key hash →
      ∃ x y, x ≠ y ∧ hash x = hash y := by
  have hne : k1.joined ≠ k2.joined := by
    intro heq
    have hd := congrArg String.data heq
    rw [joined_data, joined_data] at hd
    rcases h with ⟨hn, h2, h3, h4, h5⟩ | ⟨h1, hn, h3, h4, h5⟩ | ⟨h1, h2, hn, h4, h5⟩ |
      ⟨h1, h2, h3, hn, h5⟩ | ⟨h1, h2, h3, h4, hn⟩
    · rw [h2, h3, h4, h5] at hd
      exact hn (String.ext ((List.append_left_inj _).1 hd))
    · rw [h1, h3, h4, h5] at hd
      have hd1 := List.cons.inj ((List.append_right_inj _).1 hd)
      exact hn (String.ext ((List.append_left_inj _).1 hd1.2))
    · rw [h1, h2, h4, h5] at hd
      have hd1 := List.cons.inj ((List.append_right_inj _).1 hd)
      have hd2 := List.cons.inj ((List.append_right_inj _).1 hd1.2)
      exact hn (String.ext ((List.append_left_inj _).1 hd2.2))
    · rw [h1, h2, h3, h5] at hd
      have hd1 := List.cons.inj ((List.append_right_inj _).1 hd)
      have hd2 := List.cons.inj ((List.append_right_inj _).1 hd1.2)
      have hd3 := List.cons.inj ((List.append_right_inj _).1 hd2.2)
      exact hn (String.ext ((List.append_left_inj _).1 hd3.2))
    · rw [h1, h2, h3, h4] at hd
      have hd1 := List.cons.inj ((List.append_right_inj _).1 hd)
      have hd2 := List.cons.inj ((List.append_right_inj _).1 hd1.2)
      have hd3 := List.cons.inj ((List.append_right_inj _).1 hd2.2)
      have hd4 := List.cons.inj ((List.append_right_inj _).1 hd3.2)
      exact hn (String.ext hd4.2)
  exact ⟨hne, fun hash hk => ⟨k1.joined, k2.joined, hne, hk⟩⟩

theorem joined_differs_when_one_component_differs_witness :
    testKey.joined ≠ ({ testKey with Tenant := "default" } : RemoteResourceListCacheKey).joined :=
  (joined_differs_when_one_component_differs testKey { testKey with Tenant := "default" }
    (Or.inl ⟨by decide, rfl, rfl, rfl, rfl⟩)).1

theorem joined_injective_of_colonFree (k1 k2 : RemoteResourceListCacheKey)
    (h1 : ':' ∉ k1.Tenant.data) (h2 : ':' ∉ k1.System.data) (h3 : ':' ∉ k1.Type_.data)
    (h4 : ':' ∉ k1.IDs.data)
    (g1 : ':' ∉ k2.Tenant.data) (g2 : ':' ∉ k2.System.data) (g3 : ':' ∉ k2.Type_.data)
    (g4 : ':' ∉ k2.IDs.data)
    (heq : k1.joined = k2.joined) : k1 = k2 := by
  have hd := congrArg String.data heq
  rw [joined_data, joined_data] at hd
  obtain ⟨e1, hd⟩ := split_at_colon _ _ _ _ h1 g1 hd
  obtain ⟨e2, hd⟩ := split_at_colon _ _ _ _ h2 g2 hd
  obtain ⟨e3, hd⟩ := split_at_colon _ _ _ _ h3 g3 hd
  obtain ⟨e4, e5⟩ := split_at_colon _ _ _ _ h4 g4 hd
  cases k1
  cases k2
  simp only [RemoteResourceListCacheKey.mk.injEq]
  exact ⟨String.ext e1, String.ext e2, String.ext e3, String.ext e4, String.ext e5⟩

/-- C10: the key does not isolate tenants when components may contain `:`. The tuples
`(a, b:c, t, i, f)` and `(a:b, c, t, i, f)` have different tenants and the same
colon-joined string, hence the same key under every digest. The joined string
determines the five components when Tenant, System, Type and IDs of both tuples are
free of `:`, and for each of these four components a `:` in it alone already gives two
different tuples with the same joined string. -/
theorem key_does_not_isolate_tenants :
    (∀ (t i f : String) (hash : String → String),
      ({ Tenant := "a", System := "b:c", Type_ := t, IDs := i, Fields := f } :
          RemoteResourceListCacheKey).Tenant ≠
        ({ Tenant := "a:b", System := "c", Type_ := t, IDs := i, Fields := f } :
          RemoteResourceListCacheKey).Tenant ∧
      ({ Tenant := "a", System := "b:c", Type_ := t, IDs := i, Fields := f } :
          RemoteResourceListCacheKey).joined =
        ({ Tenant := "a:b", System := "c", Type_ := t, IDs := i, Fields := f } :
          RemoteResourceListCacheKey).joined ∧
      ({ Tenant := "a", System := "b:c", Type_ := t, IDs := i, Fields := f } :
          RemoteResourceListCacheKey).Key hash =
        ({ Tenant := "a:b", System := "c", Type_ := t, IDs := i, Fields := f } :
          RemoteResourceListCacheKey).Key hash) ∧
    (∀ k1 k2 : RemoteResourceListCacheKey,
      colonFree k1.Tenant = true → colonFree k1.System = true → colonFree k1.Type_ = true →
      colonFree k1.IDs = true →
      colonFree k2.Tenant = true → colonFree k2.System = true → colonFree k2.Type_ = true →
      colonFree k2.IDs = true →
      k1.joined = k2.joined → k1 = k2) ∧
    (∃ k1 k2 : RemoteResourceListCacheKey,
      colonFree k1.System = true ∧ colonFree k1.Type_ = true ∧ colonFree k1.IDs = true ∧
      colonFree k2.Tenant = true ∧ colonFree k2.System = true ∧ colonFree k2.Type_ = true ∧
      colonFree k2.IDs = true ∧ k1 ≠ k2 ∧ k1.joined = k2.joined) ∧
    (∃ k1 k2 : RemoteResourceListCacheKey,
      colonFree k1.Tenant = true ∧ colonFree k1.Type_ = true ∧ colonFree k1.IDs = true ∧
      colonFree k2.Tenant = true ∧ colonFree k2.System = true ∧ colonFree k2.Type_ = true ∧
      colonFree k2.IDs = true ∧ k1 ≠ k2 ∧ k1.joined = k2.joined) ∧
    (∃ k1 k2 : RemoteResourceListCacheKey,
      colonFree k1.Tenant = true ∧ colonFree k1.System = true ∧ colonFree k1.IDs = true ∧
      colonFree k2.Tenant = true ∧ colonFree k2.System = true ∧ colonFree k2.Type_ = true ∧
      colonFree k2.IDs = true ∧ k1 ≠ k2 ∧ k1.joined = k2.joined) ∧
    (∃ k1 k2 : RemoteResourceListCacheKey,
      colonFree k1.Tenant = true ∧ colonFree k1.System = true ∧ colonFree k1.Type_ = true ∧
      colonFree k2.Tenant = true ∧ colonFree k2.System = true ∧ colonFree k2.Type_ = true ∧
      colonFree k2.IDs = true ∧ k1 ≠ k2 ∧ k1.joined = k2.joined) := by
  refine ⟨?_, ?_, ?_, ?_, ?_, ?_⟩
  · intro t i f hash
    have hj : ({ Tenant := "a", System := "b:c", Type_ := t, IDs := i, Fields := f } :
          RemoteResourceListCacheKey).joined =
        ({ Tenant := "a:b", System := "c", Type_ := t, IDs := i, Fields := f } :
          RemoteResourceListCacheKey).joined := by
      apply String.ext
      rw [joined_data, joined_data]
      rfl
    exact ⟨show ("a" : String) ≠ "a:b" by decide, hj, congrArg hash hj⟩
  · intro k1 k2 h1 h2 h3 h4 g1 g2 g3 g4 heq
    exact joined_injective_of_colonFree k1 k2 ((colonFree_iff _).1 h1) ((colonFree_iff _).1 h2)
      ((colonFree_iff _).1 h3) ((colonFree_iff _).1 h4) ((colonFree_iff _).1 g1)
      ((colonFree_iff _).1 g2) ((colonFree_iff _).1 g3) ((colonFree_iff _).1 g4) heq
  · exact ⟨{ Tenant := "a:b", System := "c", Type_ := "d", IDs := "e", Fields := "f" },
      { Tenant := "a", System := "b", Type_ := "c", IDs := "d", Fields := "e:f" },
      by decide, by decide, by decide, by decide, by decide, by decide, by decide, by decide,
      by decide⟩
  · exact ⟨{ Tenant := "a", System := "b:c", Type_ := "d", IDs := "e", Fields := "f" },
      { Tenant := "a", System := "b", Type_ := "c", IDs := "d", Fields := "e:f" },
      by decide, by decide, by decide, by decide, by decide, by decide, by decide, by decide,
      by decide⟩
  · exact ⟨{ Tenant := "a", System := "b", Type_ := "c:d", IDs := "e", Fields := "f" },
      { Tenant := "a", System := "b", Type_ := "c", IDs := "d", Fields := "e:f" },
      by decide, by decide, by decide, by decide, by decide, by decide, by decide, by decide,
      by decide⟩
  · exact ⟨{ Tenant := "a", System := "b", Type_ := "c", IDs := "d:e", Fields := "f" },
      { Tenant := "a", System := "b", Type_ := "c", IDs := "d", Fields := "e:f" },
      by decide, by decide, by decide, by decide, by decide, by decide, by decide, by decide,
      by decide⟩

theorem key_does_not_isolate_tenants_witness :
    colonFree tenantKey.Tenant = true ∧ colonFree tenantKey.System = true ∧
    colonFree tenantKey.Type_ = true ∧ colonFree tenantKey.IDs = true ∧
    tenantKey =
      ({ Tenant := "def" ++ "ault", System := "bk_" ++ "cmdb", Type_ := "host", IDs := "1,2",
         Fields := "id;" ++ "name" } : RemoteResourceListCacheKey) :=
  ⟨by decide, by decide, by decide, by decide,
    key_does_not_isolate_tenants.2.1 tenantKey
      { Tenant := "def" ++ "ault", System := "bk_" ++ "cmdb", Type_ := "host", IDs := "1,2",
        Fields := "id;" ++ "name" }
      (by decide) (by decide) (by decide) (by decide) (by decide) (by decide) (by decide)
      (by decide) (by decide)⟩

/-! ## Resource list cache -/

theorem probe_of_lookup_none (tier : List (String × CacheEntry)) (key : String) (now : Nat)
    (h : tier.lookup key = none) : probe tier key now = none := by
  simp [probe, h]

/-- C7: `ListRemoteResources` on a cache with no entry for the key (in either tier)
returns the loader's error when the loader fails and stores nothing, so the
immediately following call with the same arguments invokes the loader again (and
returns what that invocation returns); when the loader succeeds with a resource list
it returns that list with no error. -/
theorem list_remote_resources_no_negative_caching (d : CacheDeps) (now later : Nat)
    (tenant system type_ : String) (ids fields : List String) (s : CacheState)
    (hlocal : s.localTier.lookup ((cacheKeyOf d tenant system type_ ids fields).Key d.hash) = none)
    (hshared : s.sharedTier.lookup ((cacheKeyOf d tenant system type_ ids fields).Key d.hash)
      = none) :
    (∀ err, d.retrieve s.loads (cacheKeyOf d tenant system type_ ids fields) = Except.error err →
      (ListRemoteResources d now tenant system type_ ids fields s).1 = Except.error err ∧
      (ListRemoteResources d now tenant system type_ ids fields s).2.localTier = s.localTier ∧
      (ListRemoteResources d now tenant system type_ ids fields s).2.sharedTier = s.sharedTier ∧
      (ListRemoteResources d now tenant system type_ ids fields s).2.loads = s.loads + 1 ∧
      (ListRemoteResources d later tenant system type_ ids fields
        (ListRemoteResources d now tenant system type_ ids fields s).2).2.loads = s.loads + 2 ∧
      (ListRemoteResources d later tenant system type_ ids fields
        (ListRemoteResources d now tenant system type_ ids fields s).2).1 =
          d.retrieve (s.loads + 1) (cacheKeyOf d tenant system type_ ids fields)) ∧
    (∀ value, d.retrieve s.loads (cacheKeyOf d tenant system type_ ids fields) = Except.ok value →
      (ListRemoteResources d now tenant system type_ ids fields s).1 = Except.ok value ∧
      (ListRemoteResources d now tenant system type_ ids fields s).2.loads = s.loads + 1) := by
  constructor
  · intro err herr
    have hfirst : ListRemoteResources d now tenant system type_ ids fields s =
        (Except.error err, { s with loads := s.loads + 1 }) := by
      simp only [ListRemoteResources, probe_of_lookup_none _ _ _ hlocal,
        probe_of_lookup_none _ _ _ hshared, herr]
    rw [hfirst]
    refine ⟨rfl, rfl, rfl, rfl, ?_, ?_⟩
    · simp only [ListRemoteResources, probe_of_lookup_none _ _ _ hlocal,
        probe_of_lookup_none _ _ _ hshared]
      cases d.retrieve (s.loads + 1) (cacheKeyOf d tenant system type_ ids fields) <;> rfl
    · simp only [ListRemoteResources, probe_of_lookup_none _ _ _ hlocal,
        probe_of_lookup_none _ _ _ hshared]
      cases d.retrieve (s.loads + 1) (cacheKeyOf d tenant system type_ ids fields) <;> rfl
  · intro value hval
    have hrun : ListRemoteResources d now tenant system type_ ids fields s =
        (Except.ok value,
          { localTier := store s.localTier
              ((cacheKeyOf d tenant system type_ ids fields).Key d.hash)
              { value := value, expiresAt := now + d.expiration },
            sharedTier := store s.sharedTier
              ((cacheKeyOf d tenant system type_ ids fields).Key d.hash)
              { value := value, expiresAt := now + d.expiration },
            loads := s.loads + 1 }) := by
      simp only [ListRemoteResources, probe_of_lookup_none _ _ _ hlocal,
        probe_of_lookup_none _ _ _ hshared, hval]
    rw [hrun]
    exact ⟨rfl, rfl⟩

theorem list_remote_resources_no_negative_caching_witness :
    (ListRemoteResources failingCache 0 "" "test" "app" ["1", "2"] ["id", "name"] emptyCache).1
        = Except.error "error here" ∧
      (ListRemoteResources failingCache 1 "" "test" "app" ["1", "2"] ["id", "name"]
        (ListRemoteResources failingCache 0 "" "test" "app" ["1", "2"] ["id", "name"]
          emptyCache).2).2.loads = 2 :=
  have h := (list_remote_resources_no_negative_caching failingCache 0 1 "" "test" "app"
    ["1", "2"] ["id", "name"] emptyCache rfl rfl).1 "error here" rfl
  ⟨h.1, h.2.2.2.2.1⟩

/-! ## Redis handles -/

theorem InitRedisClient_of_built (env : Env) (debugMode : Bool) (redisConfig : RedisConfig)
    (s : Handles) (h : s.rds ≠ none) :
    InitRedisClient env debugMode redisConfig s = (s, Outcome.returned) := by
  unfold InitRedisClient
  cases hr : s.rds with
  | none => exact absurd hr h
  | some c => rfl

theorem InitMQRedisClient_of_built (env : Env) (debugMode : Bool) (redisConfig : RedisConfig)
    (s : Handles) (h : s.mq ≠ none) :
    InitMQRedisClient env debugMode redisConfig s = (s, Outcome.returned) := by
  unfold InitMQRedisClient
  cases hr : s.mq with
  | none => exact absurd hr h
  | some c => rfl

theorem InitRedisClient_mq (env : Env) (debugMode : Bool) (redisConfig : RedisConfig)
    (s : Handles) : (InitRedisClient env debugMode redisConfig s).1.mq = s.mq := by
  unfold InitRedisClient
  cases s.rds with
  | some c => rfl
  | none =>
    cases s.redisClientInitOnce with
    | true => rfl
    | false =>
      simp only [Bool.false_eq_true, if_false]
      cases initRedisClient env debugMode redisConfig s.initCalls with
      | ok cli => rfl
      | error a => cases a <;> rfl

theorem InitMQRedisClient_rds (env : Env) (debugMode : Bool) (redisConfig : RedisConfig)
    (s : Handles) : (InitMQRedisClient env debugMode redisConfig s).1.rds = s.rds := by
  unfold InitMQRedisClient
  cases s.mq with
  | some c => rfl
  | none =>
    cases s.mqRedisClientInitOnce with
    | true => rfl
    | false =>
      simp only [Bool.false_eq_true, if_false]
      cases initRedisClient env debugMode redisConfig s.initCalls with
      | ok cli => rfl
      | error a => cases a <;> rfl

theorem runCalls_rds (env : Env) : ∀ (calls : List InitCall) (s : Handles), s.rds ≠ none →
    (runCalls env calls s).1.rds = s.rds := by
  intro calls
  induction calls with
  | nil => intro s _; rfl
  | cons c rest ih =>
    intro s h
    have hstep : (c.run env s).1.rds = s.rds := by
      cases c with
      | cache debugMode redisConfig =>
        simp only [InitCall.run, InitRedisClient_of_built env debugMode redisConfig s h]
      | mq debugMode redisConfig => exact InitMQRedisClient_rds env debugMode redisConfig s
    rw [runCalls]
    rcases hc : c.run env s with ⟨s1, o⟩
    rw [hc] at hstep
    simp only at hstep
    cases o with
    | returned =>
      simp only
      rw [ih s1 (by rw [hstep]; exact h), hstep]
    | aborted a => simpa using hstep

theorem runCalls_mq (env : Env) : ∀ (calls : List InitCall) (s : Handles), s.mq ≠ none →
    (runCalls env calls s).1.mq = s.mq := by
  intro calls
  induction calls with
  | nil => intro s _; rfl
  | cons c rest ih =>
    intro s h
    have hstep : (c.run env s).1.mq = s.mq := by
      cases c with
      | cache debugMode redisConfig => exact InitRedisClient_mq env debugMode redisConfig s
      | mq debugMode redisConfig =>
        simp only [InitCall.run, InitMQRedisClient_of_built env debugMode redisConfig s h]
    rw [runCalls]
    rcases hc : c.run env s with ⟨s1, o⟩
    rw [hc] at hstep
    simp only at hstep
    cases o with
    | returned =>
      simp only
      rw [ih s1 (by rw [hstep]; exact h), hstep]
    | aborted a => simpa using hstep

theorem runCalls_of_both_built (env : Env) : ∀ (calls : List InitCall) (s : Handles),
    s.rds ≠ none → s.mq ≠ none → runCalls env calls s = (s, Outcome.returned) := by
  intro calls
  induction calls with
  | nil => intro s _ _; rfl
  | cons c rest ih =>
    intro s h1 h2
    have hstep : c.run env s = (s, Outcome.returned) := by
      cases c with
      | cache debugMode redisConfig => exact InitRedisClient_of_built env debugMode redisConfig s h1
      | mq debugMode redisConfig => exact InitMQRedisClient_of_built env debugMode redisConfig s h2
    rw [runCalls, hstep]
    exact ih s h1 h2

/-- C8: `InitRedisClient` and `InitMQRedisClient` are idempotent on the package
variables. Once `rds` holds a handle, a call of `InitRedisClient` with any arguments
changes nothing (in particular `initRedisClient` is not invoked), and likewise for
`mq` and `InitMQRedisClient`; through any sequence of later calls of either
initialiser `GetDefaultRedisClient` / `GetDefaultMQRedisClient` keeps returning that
handle; once both are built no call initialises anything; `InitRedisClient` never
changes `mq` and `InitMQRedisClient` never changes `rds`. -/
theorem init_redis_client_idempotent (env : Env) :
    (∀ (s : Handles) (debugMode : Bool) (redisConfig : RedisConfig), s.rds ≠ none →
      InitRedisClient env debugMode redisConfig s = (s, Outcome.returned)) ∧
    (∀ (s : Handles) (debugMode : Bool) (redisConfig : RedisConfig), s.mq ≠ none →
      InitMQRedisClient env debugMode redisConfig s = (s, Outcome.returned)) ∧
    (∀ (calls : List InitCall) (s : Handles), s.rds ≠ none →
      GetDefaultRedisClient (runCalls env calls s).1 = GetDefaultRedisClient s) ∧
    (∀ (calls : List InitCall) (s : Handles), s.mq ≠ none →
      GetDefaultMQRedisClient (runCalls env calls s).1 = GetDefaultMQRedisClient s) ∧
    (∀ (calls : List InitCall) (s : Handles), s.rds ≠ none → s.mq ≠ none →
      (runCalls env calls s).1.initCalls = s.initCalls) ∧
    (∀ (s : Handles) (debugMode : Bool) (redisConfig : RedisConfig),
      GetDefaultMQRedisClient (InitRedisClient env debugMode redisConfig s).1 =
        GetDefaultMQRedisClient s) ∧
    (∀ (s : Handles) (debugMode : Bool) (redisConfig : RedisConfig),
      GetDefaultRedisClient (InitMQRedisClient env debugMode redisConfig s).1 =
        GetDefaultRedisClient s) := by
  refine ⟨?_, ?_, ?_, ?_, ?_, ?_, ?_⟩
  · intro s debugMode redisConfig h
    exact InitRedisClient_of_built env debugMode redisConfig s h
  · intro s debugMode redisConfig h
    exact InitMQRedisClient_of_built env debugMode redisConfig s h
  · intro calls s h
    exact runCalls_rds env calls s h
  · intro calls s h
    exact runCalls_mq env calls s h
  · intro calls s h1 h2
    rw [runCalls_of_both_built env calls s h1 h2]
  · intro s debugMode redisConfig
    exact InitRedisClient_mq env debugMode redisConfig s
  · intro s debugMode redisConfig
    exact InitMQRedisClient_rds env debugMode redisConfig s

theorem init_redis_client_idempotent_witness :
    (InitRedisClient reachableEnv false standaloneConfig Handles.init).1.rds ≠ none ∧
    (InitRedisClient reachableEnv false standaloneConfig Handles.init).1.initCalls = 1 ∧
    InitRedisClient reachableEnv true sentinelConfig
        (InitRedisClient reachableEnv false standaloneConfig Handles.init).1 =
      ((InitRedisClient reachableEnv false standaloneConfig Handles.init).1,
        Outcome.returned) :=
  ⟨by decide, by decide,
    (init_redis_client_idempotent reachableEnv).1
      (InitRedisClient reachableEnv false standaloneConfig Handles.init).1 true sentinelConfig
      (by decide)⟩

end BkIam
